import Mathlib

/-!
Verification of the provider-abstraction + caching core of the
W-proj7 stock tracker (src/app/data_provider.py, src/app/main.py).

The repository imports a `cache` module (the Cache Store and the
`@cache(ttl=...)` decorator) that is not present in the snapshot; those
parts are modelled from the design document (sections 4.1 and 4.2), as
are the elided bodies of the three fetch operations.  Everything under
`src/` (the Provider enumeration, configuration load, the TTL values on
the decorators, operation signatures and defaults, and the HTTP handlers
in main.py) is embedded directly from the source.
-/

namespace WProj7

/-- Provider enumeration from src/app/data_provider.py:
`class Provider(str, Enum)` with members YFINANCE = "yfinance",
FMP = "fmp", EODHD = "eodhd". -/
inductive Provider
  | yfinance
  | fmp
  | eodhd
deriving DecidableEq, Repr

/-- The string value of each enum member. -/
def Provider.value : Provider → String
  | Provider.yfinance => "yfinance"
  | Provider.fmp => "fmp"
  | Provider.eodhd => "eodhd"

/-- Python value-lookup `Provider(s)`: returns the member whose string
value equals `s` under case-sensitive comparison, and raises ValueError
otherwise (modelled as `none`). -/
def Provider.parse (s : String) : Option Provider :=
  if s = "yfinance" then some Provider.yfinance
  else if s = "fmp" then some Provider.fmp
  else if s = "eodhd" then some Provider.eodhd
  else none

/-- The process environment as read by `os.getenv` in data_provider.py:
each variable is present with a string value or absent. -/
structure Env where
  CURRENT_PROVIDER : Option String
  FMP_KEY : Option String
  EODHD_KEY : Option String
deriving DecidableEq, Repr

/-- The module-level configuration of data_provider.py after a
successful import. -/
structure Config where
  currentProvider : Provider
  fmpKey : Option String
  eodhdKey : Option String
deriving DecidableEq, Repr

/-- Module-level startup of src/app/data_provider.py:
`CURRENT_PROVIDER = Provider(os.getenv("CURRENT_PROVIDER", "yfinance"))`,
`FMP_KEY = os.getenv("FMP_KEY")`, `EODHD_KEY = os.getenv("EODHD_KEY")`.
An unknown provider name makes `Provider(...)` raise at import time,
before any route or fetch operation exists; that failed import is
modelled as `none`. -/
def loadConfig (env : Env) : Option Config :=
  match Provider.parse (env.CURRENT_PROVIDER.getD "yfinance") with
  | some p => some { currentProvider := p, fmpKey := env.FMP_KEY, eodhdKey := env.EODHD_KEY }
  | none => none

/-- Modelled from the spec: `cache.py` is imported by both source files
but missing from the snapshot.  The Cache Store of section 4.1: a
key/value store whose entries carry an absolute expiry timestamp, backed
by a remote process that may be unreachable (`alive = false`). -/
structure CacheBackend where
  alive : Bool
  entries : List (String × String × Nat)
deriving DecidableEq, Repr

/-- Modelled from the spec: `ping()` reports backend liveness as a
boolean, returning false (never an error) when the remote backend is
unreachable. -/
def CacheBackend.ping (b : CacheBackend) : Bool := b.alive

/-- Modelled from the spec: `get(key)` returns the stored value when a
live entry for the key exists and its expiry is still in the future;
when the backend is unreachable it degrades to a no-op and behaves as a
cache miss instead of raising. -/
def CacheBackend.get (b : CacheBackend) (key : String) (now : Nat) : Option String :=
  if b.alive then
    match b.entries.find? (fun e => e.1 == key) with
    | some e => if now < e.2.2 then some e.2.1 else none
    | none => none
  else none

/-- Modelled from the spec: `set(key, value, ttl)` stores the value with
expiry `now + ttl`, superseding any previous entry for the key; when the
backend is unreachable it silently skips storing instead of raising. -/
def CacheBackend.set (b : CacheBackend) (key value : String) (ttl now : Nat) : CacheBackend :=
  if b.alive then
    { b with entries := (key, value, now + ttl) :: b.entries.filter (fun e => !(e.1 == key)) }
  else b

/-- Decimal digit to its ASCII character. -/
def digitToChar (d : Nat) : Char := Char.ofNat (48 + d)

/-- ASCII character back to its decimal digit. -/
def charToDigit (c : Char) : Nat := c.toNat - 48

/-- Modelled from the spec: Python `str()` applied to a nonnegative
integer argument, i.e. its decimal digit string. -/
def pyStr (n : Nat) : String :=
  if n = 0 then "0" else String.mk (((Nat.digits 10 n).map digitToChar).reverse)

/-- Left inverse of `pyStr`, used to prove it injective. -/
def decodeDigits (s : String) : Nat :=
  Nat.ofDigits 10 (s.data.reverse.map charToDigit)

/-- Modelled from the spec, section 4.2: the cache key is a
deterministic string built from the operation's identity followed by the
ordered, stringified argument values, colon-separated. -/
def cacheKey (opName : String) (args : List String) : String :=
  args.foldl (fun acc a => acc ++ ":" ++ a) opName

/-- State threaded through a fetch: the cache backend plus a counter of
upstream invocations (for stating the call-count properties). -/
structure FetchState where
  backend : CacheBackend
  upstreamCalls : Nat
deriving DecidableEq, Repr

/-- Modelled from the spec: the `@cache(ttl=...)` decorator algorithm of
section 4.2.  Look the key up; on a hit return the stored value with no
upstream call; on a miss invoke the wrapped operation, and if it
succeeds store the result with the wrap-time TTL, while a failure is
propagated unchanged and nothing is stored. -/
def cachedCall (ttl : Nat) (key : String) (op : Unit → Except String String)
    (now : Nat) (st : FetchState) : Except String String × FetchState :=
  match st.backend.get key now with
  | some v => (Except.ok v, st)
  | none =>
      match op () with
      | Except.ok v =>
          (Except.ok v,
           { backend := st.backend.set key v ttl now, upstreamCalls := st.upstreamCalls + 1 })
      | Except.error e =>
          (Except.error e, { st with upstreamCalls := st.upstreamCalls + 1 })

/-- TTL of `@cache(ttl=300)` on DataProvider.get_price. -/
def priceTTL : Nat := 300

/-- TTL of `@cache(ttl=86400)` on DataProvider.get_historical. -/
def historicalTTL : Nat := 86400

/-- TTL of `@cache(ttl=604800)` on DataProvider.get_dividends. -/
def dividendsTTL : Nat := 604800

/-- DataProvider.get_price wrapped by the cache decorator with its
wrap-time TTL of 300 seconds; the elided body is abstracted as the
`upstream` argument. -/
def get_price (upstream : String → Except String String) (ticker : String)
    (now : Nat) (st : FetchState) : Except String String × FetchState :=
  cachedCall priceTTL (cacheKey "DataProvider.get_price" [ticker])
    (fun _ => upstream ticker) now st

/-- DataProvider.get_historical wrapped by the cache decorator with its
wrap-time TTL of 86400 seconds. -/
def get_historical_cached (upstream : String → Nat → Except String String)
    (ticker : String) (days : Nat) (now : Nat) (st : FetchState) :
    Except String String × FetchState :=
  cachedCall historicalTTL (cacheKey "DataProvider.get_historical" [ticker, pyStr days])
    (fun _ => upstream ticker days) now st

/-- DataProvider.get_dividends wrapped by the cache decorator with its
wrap-time TTL of 604800 seconds. -/
def get_dividends_cached (upstream : String → Nat → Except String String)
    (ticker : String) (lim : Nat) (now : Nat) (st : FetchState) :
    Except String String × FetchState :=
  cachedCall dividendsTTL (cacheKey "DataProvider.get_dividends" [ticker, pyStr lim])
    (fun _ => upstream ticker lim) now st

/-- One row of the upstream's native historical response. -/
structure UpstreamBar where
  tradeDate : Nat
  closePrice : Int
deriving DecidableEq, Repr

/-- The uniform normalized historical row returned to callers. -/
structure HistoricalRecord where
  date : Nat
  close : Int
deriving DecidableEq, Repr

/-- Modelled from the spec: normalization renames upstream fields into
the uniform shape row by row, adding and dropping nothing. -/
def normalizeHistorical (rows : List UpstreamBar) : List HistoricalRecord :=
  rows.map (fun r => { date := r.tradeDate, close := r.closePrice })

/-- Modelled from the spec: the body of
`get_historical(ticker: str, days: int = 365)` is elided in the source;
it dispatches to the active upstream and normalizes the reply.  The
signature and the default of 365 are taken from src/app/data_provider.py. -/
def get_historical (upstream : String → Nat → Except String (List UpstreamBar))
    (ticker : String) (days : Nat := 365) : Except String (List HistoricalRecord) :=
  (upstream ticker days).map normalizeHistorical

/-- Modelled from the spec: per-provider dispatch of the price fetch.
yfinance needs no credential; fmp and eodhd fail per-call with a
credential error when their key is absent. -/
def fetchPrice (cfg : Config)
    (yf : String → Except String String)
    (fmp : String → String → Except String String)
    (eod : String → String → Except String String)
    (ticker : String) : Except String String :=
  match cfg.currentProvider with
  | Provider.yfinance => yf ticker
  | Provider.fmp =>
      match cfg.fmpKey with
      | some k => fmp k ticker
      | none => Except.error "FMP_KEY missing for provider fmp"
  | Provider.eodhd =>
      match cfg.eodhdKey with
      | some k => eod k ticker
      | none => Except.error "EODHD_KEY missing for provider eodhd"

/-- The api_price route of src/app/main.py: it returns
DataProvider.get_price(ticker) unchanged, and on any exception returns
the one-key mapping from "error" to the exception's message. -/
def api_price (result : Except String (List (String × String))) :
    List (String × String) :=
  match result with
  | Except.ok v => v
  | Except.error e => [("error", e)]

/-- The redis liveness signal of the health route in src/app/main.py:
`redis_ok = CACHING_ENABLED and r.ping()`.  `CACHING_ENABLED` and `r`
come from the missing cache module, modelled per the spec's
health/status signal. -/
def cache_backend_alive (cachingEnabled : Bool) (b : CacheBackend) : Bool :=
  cachingEnabled && b.ping

/-! Helper lemmas shared by the claim theorems. -/

/-- Appending on the left is cancellative for strings. -/
theorem string_append_left_cancel {a b c : String} (h : a ++ b = a ++ c) : b = c := by
  apply String.ext
  have hd : a.data ++ b.data = a.data ++ c.data := by
    simpa [String.data_append] using congrArg String.data h
  exact List.append_cancel_left hd

/-- Appending on the right is cancellative for strings. -/
theorem string_append_right_cancel {a b c : String} (h : a ++ c = b ++ c) : a = b := by
  apply String.ext
  have hd : a.data ++ c.data = b.data ++ c.data := by
    simpa [String.data_append] using congrArg String.data h
  exact List.append_cancel_right hd

/-- Decoding undoes encoding on a single decimal digit. -/
theorem charToDigit_digitToChar {d : Nat} (h : d < 10) :
    charToDigit (digitToChar d) = d := by
  interval_cases d <;> rfl

/-- decodeDigits is a left inverse of pyStr. -/
theorem decodeDigits_pyStr (n : Nat) : decodeDigits (pyStr n) = n := by
  by_cases h : n = 0
  · subst h; rfl
  · unfold pyStr decodeDigits
    rw [if_neg h]
    show Nat.ofDigits 10
        ((((Nat.digits 10 n).map digitToChar).reverse).reverse.map charToDigit) = n
    rw [List.reverse_reverse, List.map_map]
    have hmap : (Nat.digits 10 n).map (charToDigit ∘ digitToChar) = Nat.digits 10 n := by
      have := List.map_congr_left (l := Nat.digits 10 n)
        (f := charToDigit ∘ digitToChar) (g := id)
        (fun d hd => charToDigit_digitToChar (Nat.digits_lt_base (by norm_num) hd))
      simpa using this
    rw [hmap]
    exact_mod_cast Nat.ofDigits_digits 10 n

/-- pyStr (the modelled Python str on nonnegative integers) is injective. -/
theorem pyStr_injective : Function.Injective pyStr :=
  Function.LeftInverse.injective decodeDigits_pyStr

/-- An absent or expired entry stays absent at any later time. -/
theorem CacheBackend.get_none_mono {b : CacheBackend} {key : String} {now later : Nat}
    (h : b.get key now = none) (hle : now ≤ later) : b.get key later = none := by
  unfold CacheBackend.get at h ⊢
  by_cases ha : b.alive
  · simp only [ha, if_true] at h ⊢
    cases hf : b.entries.find? (fun e => e.1 == key) with
    | none => simp [hf]
    | some e =>
        simp only [hf] at h ⊢
        split at h
        · exact absurd h (by simp)
        · have hexp : ¬ later < e.2.2 := by omega
          simp [hexp]
  · simp [ha]

/-- Setting a key on a live backend keeps it live. -/
theorem CacheBackend.alive_set {b : CacheBackend} {key value : String} {ttl now : Nat} :
    (b.set key value ttl now).alive = b.alive := by
  unfold CacheBackend.set
  by_cases ha : b.alive <;> simp [ha]

/-- A value just stored on a live backend is returned by get until its
expiry passes. -/
theorem CacheBackend.get_set {b : CacheBackend} {key value : String} {ttl now later : Nat}
    (ha : b.alive = true) (hlt : later < now + ttl) :
    (b.set key value ttl now).get key later = some value := by
  unfold CacheBackend.set CacheBackend.get
  simp [ha, List.find?, hlt]

/-- A cache miss whose wrapped operation fails returns the failure
unchanged and leaves the backend untouched. -/
theorem cachedCall_miss_error (ttl : Nat) (key : String) (op : Unit → Except String String)
    (e : String) (now : Nat) (st : FetchState)
    (hmiss : st.backend.get key now = none) (herr : op () = Except.error e) :
    cachedCall ttl key op now st
      = (Except.error e, { st with upstreamCalls := st.upstreamCalls + 1 }) := by
  unfold cachedCall
  rw [hmiss, herr]

/-! Claim theorems. -/

/-- C1: when the cache backend is unreachable, get and set degrade to a
no-op (the fetch behaves as a pass-through and the backend is left
unchanged, never raising), the wrapped fetch returns the upstream result
unchanged, ping reports false rather than raising, and the health
signal cache_backend_alive is false. -/
theorem C1_unreachable_backend_degrades
    (u : String → Except String String) (ticker : String) (now : Nat)
    (st : FetchState) (ce : Bool) (hdead : st.backend.alive = false) :
    (get_price u ticker now st).1 = u ticker ∧
    (get_price u ticker now st).2.backend = st.backend ∧
    st.backend.ping = false ∧
    cache_backend_alive ce st.backend = false := by
  have hget : st.backend.get (cacheKey "DataProvider.get_price" [ticker]) now = none := by
    unfold CacheBackend.get
    simp [hdead]
  have hset : ∀ k v ttl t, st.backend.set k v ttl t = st.backend := by
    intro k v ttl t
    unfold CacheBackend.set
    simp [hdead]
  unfold get_price cachedCall
  rw [hget]
  refine ⟨?_, ?_, hdead, ?_⟩
  · cases hu : u ticker <;> simp [hu]
  · cases hu : u ticker <;> simp [hu, hset]
  · unfold cache_backend_alive CacheBackend.ping
    simp [hdead]

/-- Witness for C1 at a concrete dead backend and upstream. -/
theorem C1_unreachable_backend_degrades_witness :
    (get_price (fun _ => Except.ok "189.9") "AAPL" 7
        { backend := { alive := false, entries := [] }, upstreamCalls := 0 }).1
      = Except.ok "189.9" ∧
    cache_backend_alive true { alive := false, entries := [] } = false :=
  ⟨(C1_unreachable_backend_degrades (fun _ => Except.ok "189.9") "AAPL" 7
      { backend := { alive := false, entries := [] }, upstreamCalls := 0 } true rfl).1,
   (C1_unreachable_backend_degrades (fun _ => Except.ok "189.9") "AAPL" 7
      { backend := { alive := false, entries := [] }, upstreamCalls := 0 } true rfl).2.2.2⟩

/-- C2: after a miss stores the upstream result, a second call for the
same key within the TTL window returns exactly the stored value and
performs zero additional upstream calls. -/
theorem C2_cache_hit_within_ttl
    (ttl : Nat) (key : String) (op : Unit → Except String String)
    (t0 t1 : Nat) (st : FetchState) (v : String)
    (halive : st.backend.alive = true)
    (hmiss : st.backend.get key t0 = none)
    (hok : op () = Except.ok v)
    (hlt : t1 < t0 + ttl) :
    (cachedCall ttl key op t0 st).1 = Except.ok v ∧
    (cachedCall ttl key op t1 (cachedCall ttl key op t0 st).2).1 = Except.ok v ∧
    (cachedCall ttl key op t1 (cachedCall ttl key op t0 st).2).2.upstreamCalls
      = (cachedCall ttl key op t0 st).2.upstreamCalls := by
  have h1 : cachedCall ttl key op t0 st
      = (Except.ok v,
         { backend := st.backend.set key v ttl t0, upstreamCalls := st.upstreamCalls + 1 }) := by
    unfold cachedCall
    rw [hmiss, hok]
  have hget2 : (st.backend.set key v ttl t0).get key t1 = some v :=
    CacheBackend.get_set halive hlt
  have h2 : cachedCall ttl key op t1
        ({ backend := st.backend.set key v ttl t0, upstreamCalls := st.upstreamCalls + 1 } : FetchState)
      = (Except.ok v,
         { backend := st.backend.set key v ttl t0, upstreamCalls := st.upstreamCalls + 1 }) := by
    unfold cachedCall
    rw [hget2]
  refine ⟨by rw [h1], ?_, ?_⟩
  · rw [h1]
    exact congrArg Prod.fst h2
  · rw [h1]
    exact congrArg (fun p => p.2.upstreamCalls) h2

/-- Witness for C2 at a concrete key, value and pair of times. -/
theorem C2_cache_hit_within_ttl_witness :
    (cachedCall 300 "k" (fun _ => Except.ok "99") 0
        { backend := { alive := true, entries := [] }, upstreamCalls := 0 }).1
      = Except.ok "99" ∧
    (cachedCall 300 "k" (fun _ => Except.ok "99") 100
        (cachedCall 300 "k" (fun _ => Except.ok "99") 0
          { backend := { alive := true, entries := [] }, upstreamCalls := 0 }).2).1
      = Except.ok "99" ∧
    (cachedCall 300 "k" (fun _ => Except.ok "99") 100
        (cachedCall 300 "k" (fun _ => Except.ok "99") 0
          { backend := { alive := true, entries := [] }, upstreamCalls := 0 }).2).2.upstreamCalls
      = (cachedCall 300 "k" (fun _ => Except.ok "99") 0
          { backend := { alive := true, entries := [] }, upstreamCalls := 0 }).2.upstreamCalls :=
  C2_cache_hit_within_ttl 300 "k" (fun _ => Except.ok "99") 0 100
    { backend := { alive := true, entries := [] }, upstreamCalls := 0 } "99"
    rfl rfl rfl (by decide)

/-- C3: each fetch operation is wrapped with its own fixed wrap-time
TTL: get_price 300 seconds, get_historical 86400 seconds, get_dividends
604800 seconds. -/
theorem C3_wrap_time_ttls :
    priceTTL = 300 ∧ historicalTTL = 86400 ∧ dividendsTTL = 604800 ∧
    (∀ u t now st, get_price u t now st
        = cachedCall 300 (cacheKey "DataProvider.get_price" [t]) (fun _ => u t) now st) ∧
    (∀ u t d now st, get_historical_cached u t d now st
        = cachedCall 86400 (cacheKey "DataProvider.get_historical" [t, pyStr d])
            (fun _ => u t d) now st) ∧
    (∀ u t l now st, get_dividends_cached u t l now st
        = cachedCall 604800 (cacheKey "DataProvider.get_dividends" [t, pyStr l])
            (fun _ => u t l) now st) :=
  ⟨rfl, rfl, rfl, fun _ _ _ _ => rfl, fun _ _ _ _ _ => rfl, fun _ _ _ _ _ => rfl⟩

/-- C4: a configured provider name is matched case-sensitively against
the fixed enumeration; a non-member makes startup fail (no configuration
is produced, so no fetch operation is reachable), and a member resolves
to the provider with exactly that value. -/
theorem C4_provider_selection (env : Env) (s : String)
    (hset : env.CURRENT_PROVIDER = some s) :
    (loadConfig env = none ↔ s ≠ "yfinance" ∧ s ≠ "fmp" ∧ s ≠ "eodhd") ∧
    (∀ c, loadConfig env = some c →
        c.currentProvider.value = s ∧ c.fmpKey = env.FMP_KEY ∧ c.eodhdKey = env.EODHD_KEY) := by
  unfold loadConfig Provider.parse
  rw [hset]
  simp only [Option.getD_some]
  by_cases h1 : s = "yfinance"
  · subst h1
    simp [Provider.value]
  · rw [if_neg h1]
    by_cases h2 : s = "fmp"
    · subst h2
      simp [Provider.value]
    · rw [if_neg h2]
      by_cases h3 : s = "eodhd"
      · subst h3
        simp [Provider.value]
      · rw [if_neg h3]
        simp [h1, h2, h3]

/-- Witness for C4: the upper-case name "YFINANCE" does not match
case-sensitively, so startup fails. -/
theorem C4_provider_selection_witness :
    ({ CURRENT_PROVIDER := some "YFINANCE", FMP_KEY := none, EODHD_KEY := none } : Env).CURRENT_PROVIDER
      = some "YFINANCE" ∧
    loadConfig { CURRENT_PROVIDER := some "YFINANCE", FMP_KEY := none, EODHD_KEY := none } = none :=
  ⟨rfl,
   (C4_provider_selection
      { CURRENT_PROVIDER := some "YFINANCE", FMP_KEY := none, EODHD_KEY := none }
      "YFINANCE" rfl).1.mpr (by decide)⟩

/-- C5: the cache key is a deterministic function of the operation and
the ordered stringified argument values; calls differing in the ticker
or in a numeric argument (days, limit) produce different keys. -/
theorem C5_cache_key_derivation :
    (∀ op args1 args2, args1 = args2 → cacheKey op args1 = cacheKey op args2) ∧
    (∀ op t1 t2 : String, t1 ≠ t2 → cacheKey op [t1] ≠ cacheKey op [t2]) ∧
    (∀ (op t : String) (d1 d2 : Nat), d1 ≠ d2 →
        cacheKey op [t, pyStr d1] ≠ cacheKey op [t, pyStr d2]) ∧
    (∀ (op t1 t2 : String) (d : Nat), t1 ≠ t2 →
        cacheKey op [t1, pyStr d] ≠ cacheKey op [t2, pyStr d]) := by
  refine ⟨?_, ?_, ?_, ?_⟩
  · intro op args1 args2 h
    rw [h]
  · intro op t1 t2 hne h
    exact hne (string_append_left_cancel (a := op ++ ":") h)
  · intro op t d1 d2 hne h
    exact hne (pyStr_injective
      (string_append_left_cancel (a := op ++ ":" ++ t ++ ":") h))
  · intro op t1 t2 d hne h
    have h1 : op ++ ":" ++ t1 ++ ":" = op ++ ":" ++ t2 ++ ":" :=
      string_append_right_cancel (c := pyStr d) h
    have h2 : op ++ ":" ++ t1 = op ++ ":" ++ t2 :=
      string_append_right_cancel (c := ":") h1
    exact hne (string_append_left_cancel (a := op ++ ":") h2)

/-- Witness for C5: the spec's concrete examples, tickers AAPL vs MSFT
and day-counts 30 vs 90. -/
theorem C5_cache_key_derivation_witness :
    cacheKey "DataProvider.get_price" ["AAPL"] ≠ cacheKey "DataProvider.get_price" ["MSFT"] ∧
    cacheKey "DataProvider.get_historical" ["AAPL", pyStr 30]
      ≠ cacheKey "DataProvider.get_historical" ["AAPL", pyStr 90] :=
  ⟨C5_cache_key_derivation.2.1 "DataProvider.get_price" "AAPL" "MSFT" (by decide),
   C5_cache_key_derivation.2.2.1 "DataProvider.get_historical" "AAPL" 30 90 (by decide)⟩

/-- C6: a call that finds no live entry (in particular one whose entry
has expired) performs exactly one new upstream call; concretely, with
the 300-second price TTL, get_price("AAPL") at t=0, t=100 and t=400
performs 1, 0 and 1 upstream calls, a total of exactly 2. -/
theorem C6_ttl_expiration :
    (∀ ttl key op now st, (FetchState.backend st).get key now = none →
        (cachedCall ttl key op now st).2.upstreamCalls = st.upstreamCalls + 1) ∧
    ((get_price (fun t => Except.ok (String.append "price-" t)) "AAPL" 0
        { backend := { alive := true, entries := [] }, upstreamCalls := 0 }).2.upstreamCalls = 1 ∧
     (get_price (fun t => Except.ok (String.append "price-" t)) "AAPL" 100
        (get_price (fun t => Except.ok (String.append "price-" t)) "AAPL" 0
          { backend := { alive := true, entries := [] }, upstreamCalls := 0 }).2).2.upstreamCalls = 1 ∧
     (get_price (fun t => Except.ok (String.append "price-" t)) "AAPL" 400
        (get_price (fun t => Except.ok (String.append "price-" t)) "AAPL" 100
          (get_price (fun t => Except.ok (String.append "price-" t)) "AAPL" 0
            { backend := { alive := true, entries := [] }, upstreamCalls := 0 }).2).2).2.upstreamCalls
       = 2) := by
  constructor
  · intro ttl key op now st h
    unfold cachedCall
    rw [h]
    cases hop : op () <;> simp
  · refine ⟨by decide, by decide, by decide⟩

/-- Witness for C6: the general expiration property applied to an entry
whose expiry timestamp 300 has passed at time 400. -/
theorem C6_ttl_expiration_witness :
    (cachedCall 300 "k" (fun _ => Except.ok "7") 400
        { backend := { alive := true, entries := [("k", "7", 300)] }, upstreamCalls := 1 }).2.upstreamCalls
      = 1 + 1 :=
  C6_ttl_expiration.1 300 "k" (fun _ => Except.ok "7") 400
    { backend := { alive := true, entries := [("k", "7", 300)] }, upstreamCalls := 1 }
    (by decide)

/-- C7: when the wrapped operation fails, the decorator propagates the
failure unchanged and stores nothing, so a subsequent call still
invokes the upstream. -/
theorem C7_failure_not_cached
    (ttl : Nat) (key : String) (op : Unit → Except String String)
    (e : String) (now later : Nat) (st : FetchState)
    (hmiss : st.backend.get key now = none)
    (herr : op () = Except.error e)
    (hle : now ≤ later) :
    (cachedCall ttl key op now st).1 = Except.error e ∧
    (cachedCall ttl key op now st).2.backend = st.backend ∧
    (cachedCall ttl key op later (cachedCall ttl key op now st).2).2.upstreamCalls
      = (cachedCall ttl key op now st).2.upstreamCalls + 1 := by
  have h1 : cachedCall ttl key op now st
      = (Except.error e, { st with upstreamCalls := st.upstreamCalls + 1 }) :=
    cachedCall_miss_error ttl key op e now st hmiss herr
  have hmiss2 : st.backend.get key later = none :=
    CacheBackend.get_none_mono hmiss hle
  have h2 : cachedCall ttl key op later ({ st with upstreamCalls := st.upstreamCalls + 1 } : FetchState)
      = (Except.error e,
         { st with upstreamCalls := st.upstreamCalls + 1 + 1 }) :=
    cachedCall_miss_error ttl key op e later
      { st with upstreamCalls := st.upstreamCalls + 1 } hmiss2 herr
  refine ⟨by rw [h1], by rw [h1], ?_⟩
  rw [h1]
  exact congrArg (fun p => p.2.upstreamCalls) h2

/-- Witness for C7 at a concrete failing upstream. -/
theorem C7_failure_not_cached_witness :
    (cachedCall 300 "k" (fun _ => Except.error "provider down") 0
        { backend := { alive := true, entries := [] }, upstreamCalls := 0 }).1
      = Except.error "provider down" ∧
    (cachedCall 300 "k" (fun _ => Except.error "provider down") 0
        { backend := { alive := true, entries := [] }, upstreamCalls := 0 }).2.backend
      = { alive := true, entries := [] } ∧
    (cachedCall 300 "k" (fun _ => Except.error "provider down") 10
        (cachedCall 300 "k" (fun _ => Except.error "provider down") 0
          { backend := { alive := true, entries := [] }, upstreamCalls := 0 }).2).2.upstreamCalls
      = (cachedCall 300 "k" (fun _ => Except.error "provider down") 0
          { backend := { alive := true, entries := [] }, upstreamCalls := 0 }).2.upstreamCalls + 1 :=
  C7_failure_not_cached 300 "k" (fun _ => Except.error "provider down")
    "provider down" 0 10
    { backend := { alive := true, entries := [] }, upstreamCalls := 0 }
    rfl rfl (by decide)

/-- C8: get_historical takes a ticker and an integer days defaulting to
365 and returns the upstream rows field-renamed into the uniform shape,
preserving the length and the date sequence (hence the ordering, with
no gaps introduced), or the upstream error. -/
theorem C8_historical_normalization
    (u : String → Nat → Except String (List UpstreamBar)) (t : String) (d : Nat)
    (rows : List UpstreamBar) (hok : u t d = Except.ok rows) :
    get_historical u t d = Except.ok (normalizeHistorical rows) ∧
    (normalizeHistorical rows).length = rows.length ∧
    (normalizeHistorical rows).map HistoricalRecord.date = rows.map UpstreamBar.tradeDate ∧
    (∀ u2 t2, get_historical u2 t2 = get_historical u2 t2 365) := by
  refine ⟨?_, ?_, ?_, fun u2 t2 => rfl⟩
  · unfold get_historical
    rw [hok]
    rfl
  · unfold normalizeHistorical
    exact List.length_map rows _
  · unfold normalizeHistorical
    rw [List.map_map]
    rfl

/-- Witness for C8 at a two-row upstream response. -/
theorem C8_historical_normalization_witness :
    get_historical
        (fun _ _ => Except.ok
          [{ tradeDate := 1, closePrice := 10 }, { tradeDate := 2, closePrice := 11 }])
        "AAPL" 365
      = Except.ok [{ date := 1, close := 10 }, { date := 2, close := 11 }] :=
  (C8_historical_normalization
    (fun _ _ => Except.ok
      [{ tradeDate := 1, closePrice := 10 }, { tradeDate := 2, closePrice := 11 }])
    "AAPL" 365
    [{ tradeDate := 1, closePrice := 10 }, { tradeDate := 2, closePrice := 11 }]
    rfl).1

/-- C9: with no provider name configured, configuration load succeeds
and selects yfinance even with every API key absent, and the price
fetch then succeeds without any key: it is exactly the yfinance
upstream call. -/
theorem C9_default_provider (env : Env) (hnone : env.CURRENT_PROVIDER = none) :
    loadConfig env
      = some { currentProvider := Provider.yfinance, fmpKey := env.FMP_KEY, eodhdKey := env.EODHD_KEY } ∧
    (∀ c yf fmp eod t, loadConfig env = some c → fetchPrice c yf fmp eod t = yf t) := by
  have h : loadConfig env
      = some { currentProvider := Provider.yfinance, fmpKey := env.FMP_KEY, eodhdKey := env.EODHD_KEY } := by
    unfold loadConfig
    rw [hnone]
    rfl
  refine ⟨h, ?_⟩
  intro c yf fmp eod t hc
  rw [h] at hc
  injection hc with hc2
  rw [← hc2]
  rfl

/-- Witness for C9: a fully empty environment. -/
theorem C9_default_provider_witness :
    loadConfig { CURRENT_PROVIDER := none, FMP_KEY := none, EODHD_KEY := none }
      = some { currentProvider := Provider.yfinance, fmpKey := none, eodhdKey := none } ∧
    fetchPrice { currentProvider := Provider.yfinance, fmpKey := none, eodhdKey := none }
        (fun _ => Except.ok "192.3") (fun _ _ => Except.error "x") (fun _ _ => Except.error "x") "AAPL"
      = Except.ok "192.3" :=
  ⟨(C9_default_provider { CURRENT_PROVIDER := none, FMP_KEY := none, EODHD_KEY := none } rfl).1,
   (C9_default_provider { CURRENT_PROVIDER := none, FMP_KEY := none, EODHD_KEY := none } rfl).2
     { currentProvider := Provider.yfinance, fmpKey := none, eodhdKey := none }
     (fun _ => Except.ok "192.3") (fun _ _ => Except.error "x") (fun _ _ => Except.error "x") "AAPL"
     (C9_default_provider { CURRENT_PROVIDER := none, FMP_KEY := none, EODHD_KEY := none } rfl).1⟩

/-- C10: the api_price route never propagates an exception: on a
failure of DataProvider.get_price it returns the mapping whose single
key is "error" with the exception message as value, and otherwise it
returns the fetch result unchanged. -/
theorem C10_api_price_catches (r : Except String (List (String × String))) :
    (∀ e, r = Except.error e →
        api_price r = [("error", e)] ∧ (api_price r).map Prod.fst = ["error"]) ∧
    (∀ v, r = Except.ok v → api_price r = v) := by
  constructor
  · intro e he
    subst he
    exact ⟨rfl, rfl⟩
  · intro v hv
    subst hv
    rfl

/-- Witness for C10 on a concrete failure and a concrete success. -/
theorem C10_api_price_catches_witness :
    api_price (Except.error "boom") = [("error", "boom")] ∧
    api_price (Except.ok [("price", "1.0")]) = [("price", "1.0")] :=
  ⟨((C10_api_price_catches (Except.error "boom")).1 "boom" rfl).1,
   (C10_api_price_catches (Except.ok [("price", "1.0")])).2 [("price", "1.0")] rfl⟩

end WProj7
